import Mathlib

/-!
Shallow embedding of the authentication / session core of the
personal-finance-manager repository (`app/services/user_service.py`,
`app/services/mfa_service.py`, `app/services/firebase_service.py`,
`app/services/oauth_service.py`, `app/api/v1/auth.py`, `app/api/v1/mfa.py`,
`app/utils/jwt.py`, `app/utils/totp.py`).

Modelling conventions:
* Timestamps (`datetime.utcnow()`) are natural numbers counting seconds.
* bcrypt hashes (`passlib` CryptContext) are modelled as a pair of a salt and
  the hashed plaintext; `pwd_context.verify` compares the plaintext embedded
  in the hash.  Distinct salts model the fact that two bcrypt hashes of the
  same plaintext are distinct strings.
* SHA-256 of the encoded refresh-token string is injective on distinct
  tokens, so a stored `refresh_token_hash` is modelled by the refresh-token
  value itself (collision-free idealization).
* Fernet encryption round-trips (`decrypt (encrypt x) = x`), so the
  `*_encrypted` columns are modelled by their plaintext contents.
* Randomness (UUID jti values, generated OTP codes, bcrypt salts) is passed
  in as explicit oracle arguments.
* The SQL tables become lists of rows; `INSERT` appends, `UPDATE ... WHERE`
  maps over the list, `SELECT ... LIMIT 1` takes the first matching row.
-/

namespace PFM

abbrev UserId := Nat
abbrev Instant := Nat

/-- A bcrypt (passlib CryptContext) hash: random salt plus the plaintext it
certifies.  `pwd_context.verify p h` succeeds iff `p` is the hashed text. -/
structure PwdHash where
  salt : Nat
  plain : String
deriving DecidableEq, Repr

/-- `pwd_context.verify` from passlib. -/
def pwdVerify (pw : String) (h : PwdHash) : Bool :=
  pw == h.plain

/-- Access token produced by `JWTManager.create_access_token`
(claims `sub`, `email`, `exp`, `type = "access"`). -/
structure AccessTok where
  sub : UserId
  email : String
  exp : Instant
deriving DecidableEq, Repr

/-- Refresh token produced by `JWTManager.create_refresh_token`
(claims `sub`, `email`, `exp`, fresh `jti`, `type = "refresh"`). -/
structure RefreshTok where
  sub : UserId
  email : String
  exp : Instant
  jti : Nat
deriving DecidableEq, Repr

/-- Temporary MFA-challenge token from `JWTManager.create_temp_token`
(claims `sub`, `email`, `mfa_type`, `mfa_pending`, `exp`, `type = "temp"`). -/
structure TempTok where
  sub : UserId
  email : String
  mfa_type : String
  exp : Instant
deriving DecidableEq, Repr

/-- Remember-device token from `JWTManager.create_mfa_session_token`
(claims `sub`, `email`, `mfa_verified`, `exp`, `type = "mfa_session"`). -/
structure MfaSessionTok where
  sub : UserId
  email : String
  exp : Instant
deriving DecidableEq, Repr

/-- A row of the `users` table (columns used by the authentication core). -/
structure User where
  id : UserId
  email : String
  full_name : String
  phone : String
  user_type : String
  password_hash : Option PwdHash
  profile_status : String
  email_verified : Bool
  failed_login_attempts : Nat
  account_locked_until : Option Instant
  totp_enabled : Bool
  totp_secret_encrypted : Option String
  backup_codes_encrypted : Option (List String)
  email_mfa_enabled : Bool
  firebase_uid : Option String
  google_id : Option String
  oauth_provider : Option String
  profile_picture : Option String
  last_login : Option Instant
  updated_at : Instant
  deleted_at : Option Instant
deriving DecidableEq, Repr

/-- A row of the `user_sessions` table.  `refresh_token_hash` holds the
SHA-256 digest of the refresh token, modelled by the token itself. -/
structure Session where
  user_id : UserId
  refresh_token_hash : RefreshTok
  expires_at : Instant
  is_active : Bool
  last_used_at : Option Instant
deriving DecidableEq, Repr

/-- A row of the `email_mfa_codes` table. -/
structure EmailOtp where
  user_id : UserId
  code_hash : PwdHash
  expires_at : Instant
  used : Bool
  created_at : Instant
deriving DecidableEq, Repr

/-- A row of the `mfa_attempts` table. -/
structure MfaAttempt where
  user_id : UserId
  method : String
  success : Bool
  ip_address : Option String
  user_agent : Option String
deriving DecidableEq, Repr

/-- The database state: the four tables the authentication core touches. -/
structure Db where
  users : List User
  sessions : List Session
  email_mfa_codes : List EmailOtp
  mfa_attempts : List MfaAttempt
deriving DecidableEq, Repr

/-- `SELECT * FROM users WHERE email = $1 AND deleted_at IS NULL`
(`UserService.get_user_by_email`). -/
def findUserByEmail (db : Db) (email : String) : Option User :=
  db.users.find? fun u => u.email == email && u.deleted_at == none

/-- `SELECT * FROM users WHERE id = $1 AND deleted_at IS NULL`
(`UserService.get_user_by_id` / `MFAService.get_user_by_id`). -/
def findUserById (db : Db) (uid : UserId) : Option User :=
  db.users.find? fun u => u.id == uid && u.deleted_at == none

/-- `UPDATE users SET ... WHERE id = $n` applied through a row transform. -/
def updateUserById (db : Db) (uid : UserId) (f : User → User) : Db :=
  { db with users := db.users.map fun u => if u.id = uid then f u else u }

/-- The `user["account_locked_until"] and user["account_locked_until"] > datetime.utcnow()`
test of `UserService.authenticate_user`. -/
def lockActive (u : User) (now : Instant) : Bool :=
  match u.account_locked_until with
  | some t => decide (now < t)
  | none => false

/-- Error outcomes the login path surfaces (HTTP 401 details). -/
inductive LoginErr where
  | invalidCredentials
  | accountLocked
  | emailNotVerified
  | accountInactive
deriving DecidableEq, Repr

/-- Result of `UserService.authenticate_user`: `None` and the raised
`ValueError`s are mapped to tagged failures. -/
inductive AuthResult where
  | ok (u : User)
  | failed (e : LoginErr)
deriving DecidableEq, Repr

/-- `UserService.authenticate_user`.  Note the source order: the password is
verified first (a `None`/exception short-circuits to invalid credentials),
and only then the lockout, email-verification and status checks run. -/
def authenticate_user (db : Db) (email pw : String) (now : Instant) : AuthResult :=
  match findUserByEmail db email with
  | none => .failed .invalidCredentials
  | some u =>
    match u.password_hash with
    | none => .failed .invalidCredentials
    | some h =>
      if ¬ pwdVerify pw h then .failed .invalidCredentials
      else if lockActive u now then .failed .accountLocked
      else if ¬ u.email_verified then .failed .emailNotVerified
      else if u.profile_status ≠ "active" then .failed .accountInactive
      else .ok u

/-- `UserService.update_last_login`. -/
def update_last_login (db : Db) (uid : UserId) (now : Instant) : Db :=
  updateUserById db uid fun u => { u with last_login := some now, updated_at := now }

/-- `datetime.utcnow().replace(second=0, microsecond=0)`. -/
def floorMinute (t : Instant) : Instant :=
  t - t % 60

/-- `UserService.increment_failed_login_attempts`.  The lock time is computed
by `lock_until.replace(minute=lock_until.minute + 15)`, which raises a
`ValueError` whenever `minute + 15 > 59`; the `Except` models that crash. -/
def increment_failed_login_attempts (db : Db) (uid : UserId) (now : Instant) :
    Except String Db :=
  match findUserById db uid with
  | none => .ok db
  | some u =>
    let failed_attempts := u.failed_login_attempts + 1
    if 5 ≤ failed_attempts then
      if 59 < now / 60 % 60 + 15 then
        .error "ValueError: minute must be in 0..59"
      else
        .ok (updateUserById db uid fun x =>
          { x with failed_login_attempts := failed_attempts,
                   account_locked_until := some (floorMinute now + 15 * 60) })
    else
      .ok (updateUserById db uid fun x =>
        { x with failed_login_attempts := failed_attempts })

/-- `settings.ACCESS_TOKEN_EXPIRE_MINUTES`. -/
def ACCESS_TOKEN_EXPIRE_MINUTES : Nat := 30

/-- `settings.REFRESH_TOKEN_EXPIRE_DAYS`. -/
def REFRESH_TOKEN_EXPIRE_DAYS : Nat := 7

/-- `settings.MFA_SESSION_DAYS`. -/
def MFA_SESSION_DAYS : Nat := 7

/-- `JWTManager.create_user_tokens`: an access token and a fresh refresh
token (the `jti` oracle argument stands for the random UUID). -/
def create_user_tokens (uid : UserId) (email : String) (now : Instant) (jti : Nat) :
    AccessTok × RefreshTok :=
  (⟨uid, email, now + ACCESS_TOKEN_EXPIRE_MINUTES * 60⟩,
   ⟨uid, email, now + REFRESH_TOKEN_EXPIRE_DAYS * 86400, jti⟩)

/-- `UserService.store_refresh_token`: SHA-256 the token and insert an active
row into `user_sessions`. -/
def store_refresh_token (db : Db) (uid : UserId) (tok : RefreshTok) (now : Instant) : Db :=
  { db with sessions := db.sessions ++
      [⟨uid, tok, now + REFRESH_TOKEN_EXPIRE_DAYS * 86400, true, none⟩] }

/-- Modelled from the spec: `pyotp`'s RFC 6238 code is a deterministic
6-digit function of the secret and the 30-second time step (the library is
outside the repository).  Only determinism and step-dependence matter here. -/
def totpCode (secret : String) (step : Nat) : String :=
  secret ++ "#" ++ toString step

/-- `TOTPManager.verify_code` with the default `valid_window=1`: the code for
the current 30-second step or for one step on either side is accepted. -/
def totpVerify (secret code : String) (now : Instant) : Bool :=
  let t := now / 30
  code == totpCode secret t || code == totpCode secret (t - 1) ||
    code == totpCode secret (t + 1)

/-- `MFAService.setup_totp`: persist the (encrypted) generated secret and
backup codes, leaving `totp_enabled` untouched.  The generated secret and
codes are oracle arguments. -/
def setup_totp (db : Db) (uid : UserId) (secret : String) (backup_codes : List String)
    (now : Instant) : Db :=
  updateUserById db uid fun u =>
    { u with totp_secret_encrypted := some secret,
             backup_codes_encrypted := some backup_codes,
             updated_at := now }

/-- `MFAService.verify_totp_setup`: verify a code against the stored secret
and flip `totp_enabled` on success. -/
def verify_totp_setup (db : Db) (uid : UserId) (code : String) (now : Instant) :
    Bool × Db :=
  match findUserById db uid with
  | none => (false, db)
  | some u =>
    match u.totp_secret_encrypted with
    | none => (false, db)
    | some secret =>
      if totpVerify secret code now then
        (true, updateUserById db uid fun x =>
          { x with totp_enabled := true, updated_at := now })
      else (false, db)

/-- `MFAService.verify_totp_login`: requires the user to exist with
`totp_enabled` and a stored secret; pure read. -/
def verify_totp_login (db : Db) (uid : UserId) (code : String) (now : Instant) : Bool :=
  match findUserById db uid with
  | none => false
  | some u =>
    if ¬ u.totp_enabled then false
    else
      match u.totp_secret_encrypted with
      | none => false
      | some secret => totpVerify secret code now

/-- `MFAService.verify_backup_code`: decrypt the stored list, check
membership, and persist the list with the first occurrence of the used code
removed (`list.remove`). -/
def verify_backup_code (db : Db) (uid : UserId) (code : String) (now : Instant) :
    Bool × Db :=
  match findUserById db uid with
  | none => (false, db)
  | some u =>
    match u.backup_codes_encrypted with
    | none => (false, db)
    | some backup_codes =>
      if code ∈ backup_codes then
        (true, updateUserById db uid fun x =>
          { x with backup_codes_encrypted := some (backup_codes.erase code),
                   updated_at := now })
      else (false, db)

/-- `MFAService.send_email_mfa_code`: require an existing user with email MFA
enabled, insert a bcrypt-hashed 6-digit code expiring in 5 minutes, hand the
plaintext to the mailer (whose boolean outcome `mailOk` is ignored — a
delivery failure is only printed), and return the plaintext code. -/
def send_email_mfa_code (db : Db) (uid : UserId) (_email : String) (now : Instant)
    (salt : Nat) (code : String) (mailOk : Bool) : Except String (String × Db) :=
  match findUserById db uid with
  | none => .error "User not found"
  | some u =>
    if ¬ u.email_mfa_enabled then .error "Email MFA is not enabled for this user"
    else
      let db1 : Db :=
        { db with email_mfa_codes := db.email_mfa_codes ++
            [⟨uid, ⟨salt, code⟩, now + 5 * 60, false, now⟩] }
      let _ := mailOk
      .ok (code, db1)

/-- Accumulator pass selecting the usable row with the greatest
`created_at` (later rows win ties). -/
def mostRecentUsableGo (uid : UserId) (now : Instant) :
    Option EmailOtp → List EmailOtp → Option EmailOtp
  | acc, [] => acc
  | acc, r :: rest =>
    mostRecentUsableGo uid now
      (if r.user_id = uid ∧ r.used = false ∧ now < r.expires_at then
        match acc with
        | none => some r
        | some b => if b.created_at ≤ r.created_at then some r else some b
      else acc) rest

/-- The `SELECT ... WHERE user_id = $1 AND used = FALSE AND expires_at > $2
ORDER BY created_at DESC LIMIT 1` of `MFAService.verify_email_mfa_code`:
the usable row with the greatest `created_at`. -/
def mostRecentUsable (rows : List EmailOtp) (uid : UserId) (now : Instant) :
    Option EmailOtp :=
  mostRecentUsableGo uid now none rows

/-- `MFAService.verify_email_mfa_code`: fetch the most recent usable code,
verify the plaintext against its bcrypt hash, and on success flip `used` on
the rows of this user carrying that hash. -/
def verify_email_mfa_code (db : Db) (uid : UserId) (code : String) (now : Instant) :
    Bool × Db :=
  match mostRecentUsable db.email_mfa_codes uid now with
  | none => (false, db)
  | some r =>
    if pwdVerify code r.code_hash then
      (true,
       { db with email_mfa_codes := db.email_mfa_codes.map fun x =>
           if x.user_id = uid ∧ x.code_hash = r.code_hash then
             { x with used := true }
           else x })
    else (false, db)

/-- `MFAService.enable_email_mfa`. -/
def enable_email_mfa (db : Db) (uid : UserId) (now : Instant) : Db :=
  updateUserById db uid fun u => { u with email_mfa_enabled := true, updated_at := now }

/-- Result row of `MFAService.get_mfa_status`. -/
structure MfaStatus where
  totp_enabled : Bool
  email_mfa_enabled : Bool
  mfa_required : Bool
  backup_codes_remaining : Nat
deriving DecidableEq, Repr

/-- `MFAService.get_mfa_status`. -/
def get_mfa_status (db : Db) (uid : UserId) : MfaStatus :=
  match findUserById db uid with
  | none => ⟨false, false, false, 0⟩
  | some u =>
    let remaining :=
      if u.totp_enabled then
        match u.backup_codes_encrypted with
        | some cs => cs.length
        | none => 0
      else 0
    ⟨u.totp_enabled, u.email_mfa_enabled,
     u.totp_enabled || u.email_mfa_enabled, remaining⟩

/-- `MFAService.log_mfa_attempt`: append a row to `mfa_attempts`. -/
def log_mfa_attempt (db : Db) (uid : UserId) (method : String) (success : Bool)
    (ip_address user_agent : Option String) : Db :=
  { db with mfa_attempts := db.mfa_attempts ++
      [⟨uid, method, success, ip_address, user_agent⟩] }

/-- Response of the `/auth/login` endpoint (`LoginResponse`): either a
challenge (`requires_mfa = true`, temp token) or full tokens.  The login
endpoint never issues an `mfa_session` token, so that slot is `none` there;
`/auth/mfa/verify` may fill it. -/
inductive LoginResult where
  | challenged (mfa_type : String) (temp : TempTok)
  | authenticated (access : AccessTok) (refresh : RefreshTok)
      (mfa_session : Option MfaSessionTok)
  | failed (e : LoginErr)
deriving DecidableEq, Repr

/-- `login` in `app/api/v1/auth.py`.  Oracle arguments: `now` (clock), `jti`
(refresh-token UUID), `salt` and `otpCodeGen` (bcrypt salt and generated
6-digit code of the auto-sent email OTP), `mailOk` (mailer outcome).

A present `mfa_session_token` skips MFA only when it verifies (type and
expiry) and its `sub` matches the authenticated user; an invalid token is
swallowed and the normal MFA flow continues. -/
def login (db : Db) (email pw : String) (mfa_session_token : Option MfaSessionTok)
    (now : Instant) (jti salt : Nat) (otpCodeGen : String) (mailOk : Bool) :
    LoginResult × Db :=
  match authenticate_user db email pw now with
  | .failed e => (.failed e, db)
  | .ok u =>
    let db1 := update_last_login db u.id now
    let skip :=
      match mfa_session_token with
      | some t => decide (¬ t.exp < now) && t.sub == u.id
      | none => false
    if skip then
      let (a, r) := create_user_tokens u.id u.email now jti
      (.authenticated a r none, store_refresh_token db1 u.id r now)
    else
      let st := get_mfa_status db1 u.id
      if st.mfa_required then
        let mt := if st.totp_enabled then "totp" else "email"
        let temp : TempTok := ⟨u.id, u.email, mt, now + 5 * 60⟩
        if mt == "email" then
          match send_email_mfa_code db1 u.id u.email now salt otpCodeGen mailOk with
          | .ok (_, db2) => (.challenged mt temp, db2)
          | .error _ => (.challenged mt temp, db1)
        else (.challenged mt temp, db1)
      else
        let (a, r) := create_user_tokens u.id u.email now jti
        (.authenticated a r none, store_refresh_token db1 u.id r now)

/-- Outcome of the `/auth/mfa/verify` endpoint. -/
inductive MfaVerifyResult where
  | ok (access : AccessTok) (refresh : RefreshTok) (mfa_session : Option MfaSessionTok)
  | unauthorized (detail : String)
deriving DecidableEq, Repr

/-- The `mfa_type` dispatch block of `verify_mfa_login`: TOTP verification
with backup-code fallback, or email-OTP verification. -/
def dispatch_mfa_code (db : Db) (uid : UserId) (mfa_type code : String)
    (now : Instant) : Bool × Db :=
  if mfa_type == "totp" then
    if verify_totp_login db uid code now then (true, db)
    else verify_backup_code db uid code now
  else if mfa_type == "email" then
    verify_email_mfa_code db uid code now
  else (false, db)

/-- `verify_mfa_login` in `app/api/v1/auth.py`: verify the temp token, reload
the user (must be active), dispatch by `mfa_type` with the TOTP-then-backup
fallback, and on success store a session and optionally a remember-device
token.  The endpoint inserts no `mfa_attempts` row on any path. -/
def verify_mfa_login (db : Db) (temp : TempTok) (code : String) (remember_device : Bool)
    (now : Instant) (jti : Nat) : MfaVerifyResult × Db :=
  if temp.exp < now then (.unauthorized "Token has expired", db)
  else
    match findUserById db temp.sub with
    | none => (.unauthorized "User not found or inactive", db)
    | some u =>
      if u.profile_status ≠ "active" then
        (.unauthorized "User not found or inactive", db)
      else
        let verified : Bool × Db := dispatch_mfa_code db temp.sub temp.mfa_type code now
        if ¬ verified.1 then (.unauthorized "Invalid MFA code", verified.2)
        else
          let ar := create_user_tokens temp.sub temp.email now jti
          let db2 := store_refresh_token verified.2 temp.sub ar.2 now
          let ms : Option MfaSessionTok :=
            if remember_device then
              some ⟨temp.sub, temp.email, now + MFA_SESSION_DAYS * 86400⟩
            else none
          (.ok ar.1 ar.2 ms, db2)

/-- Errors of the `/auth/refresh` endpoint: an expired JWT fails signature
verification with "Token has expired"; a missing / inactive / expired session
row fails with "Invalid refresh token". -/
inductive RefreshErr where
  | tokenExpired
  | invalidRefresh
deriving DecidableEq, Repr

/-- Outcome of the `/auth/refresh` endpoint. -/
inductive RefreshResult where
  | ok (access : AccessTok) (refresh : RefreshTok)
  | err (e : RefreshErr)
deriving DecidableEq, Repr

/-- The session lookup of `refresh_token` in `app/api/v1/auth.py`:
`WHERE user_id = $1 AND refresh_token_hash = $2 AND is_active = TRUE AND expires_at > $3`. -/
def find_active_session (db : Db) (uid : UserId) (h : RefreshTok) (now : Instant) :
    Option Session :=
  db.sessions.find? fun s =>
    decide (s.user_id = uid ∧ s.refresh_token_hash = h ∧ s.is_active = true ∧
      now < s.expires_at)

/-- `refresh_token` in `app/api/v1/auth.py`: verify the JWT, look up the
active session by token hash, mint a new pair, insert the new session, then
deactivate every session bearing the presented token's hash. -/
def refresh_endpoint (db : Db) (tok : RefreshTok) (now : Instant) (jti : Nat) :
    RefreshResult × Db :=
  if tok.exp < now then (.err .tokenExpired, db)
  else
    match find_active_session db tok.sub tok now with
    | none => (.err .invalidRefresh, db)
    | some _ =>
      let (a, r) := create_user_tokens tok.sub tok.email now jti
      let db1 := store_refresh_token db tok.sub r now
      let db2 : Db :=
        { db1 with sessions := db1.sessions.map fun s =>
            if s.refresh_token_hash = tok then { s with is_active := false } else s }
      (.ok a r, db2)

/-- `logout` in `app/api/v1/auth.py`: mark every session bearing the token's
hash inactive and stamp `last_used_at`. -/
def logout_endpoint (db : Db) (tok : RefreshTok) (now : Instant) : Db :=
  { db with sessions := db.sessions.map fun s =>
      if s.refresh_token_hash = tok then
        { s with is_active := false, last_used_at := some now }
      else s }

/-- `verify_backup_code` endpoint in `app/api/v1/mfa.py`: verify, then append
an `mfa_attempts` row recording the outcome (on success and on failure). -/
def backup_verify_endpoint (db : Db) (uid : UserId) (code : String) (now : Instant)
    (ip_address user_agent : Option String) : Bool × Db :=
  let res := verify_backup_code db uid code now
  (res.1, log_mfa_attempt res.2 uid "backup" res.1 ip_address user_agent)

/-- `send_email_mfa_code` endpoint in `app/api/v1/mfa.py`: require email MFA
enabled, send the code, and in the development environment embed the
plaintext code in the success message. -/
def send_email_mfa_code_endpoint (db : Db) (uid : UserId) (email : String)
    (now : Instant) (salt : Nat) (code : String) (mailOk : Bool)
    (environment : String) : Option String × Db :=
  let st := get_mfa_status db uid
  if ¬ st.email_mfa_enabled then (none, db)
  else
    match send_email_mfa_code db uid email now salt code mailOk with
    | .error _ => (none, db)
    | .ok (c, db1) =>
      (some (if environment == "development" then "Email MFA code sent: " ++ c
             else "Email MFA code sent successfully"), db1)

/-- A verified Firebase assertion as produced by
`FirebaseService.verify_firebase_token` (the Firebase Admin SDK itself is
external). -/
structure FirebaseInfo where
  uid : String
  email : String
  email_verified : Bool
  name : String
  picture : Option String
deriving DecidableEq, Repr

/-- `FirebaseService.get_user_by_firebase_uid`. -/
def get_user_by_firebase_uid (db : Db) (firebase_uid : String) : Option User :=
  db.users.find? fun u => u.firebase_uid == some firebase_uid && u.deleted_at == none

/-- `FirebaseService.link_firebase_account`: set `firebase_uid` and set
`oauth_provider` to the constant `'firebase'`. -/
def link_firebase_account (db : Db) (uid : UserId) (firebase_uid : String)
    (now : Instant) : Db :=
  updateUserById db uid fun u =>
    { u with firebase_uid := some firebase_uid,
             oauth_provider := some "firebase", updated_at := now }

/-- `OAuthService.link_google_account`: set `google_id` and set
`oauth_provider` to the constant `'both'`. -/
def link_google_account (db : Db) (uid : UserId) (google_id : String)
    (now : Instant) : Db :=
  updateUserById db uid fun u =>
    { u with google_id := some google_id,
             oauth_provider := some "both", updated_at := now }

/-- `FirebaseService.create_user_from_firebase`: auto-provision an active,
email-verified user with placeholder phone and defaults. -/
def create_user_from_firebase (db : Db) (info : FirebaseInfo) (newId : UserId)
    (now : Instant) : User × Db :=
  let u : User :=
    { id := newId, email := info.email, full_name := info.name,
      phone := "+0000000000", user_type := "individual",
      password_hash := none, profile_status := "active",
      email_verified := info.email_verified, failed_login_attempts := 0,
      account_locked_until := none, totp_enabled := false,
      totp_secret_encrypted := none, backup_codes_encrypted := none,
      email_mfa_enabled := false, firebase_uid := some info.uid,
      google_id := none, oauth_provider := some "firebase",
      profile_picture := info.picture, last_login := none,
      updated_at := now, deleted_at := none }
  (u, { db with users := db.users ++ [u] })

/-- `FirebaseService.find_or_create_user`: by `firebase_uid`, else by email
(link, then re-fetch the updated row), else auto-provision.  After a link the
re-fetch always succeeds, so `getD` only names the already-fetched row. -/
def find_or_create_user (db : Db) (info : FirebaseInfo) (newId : UserId)
    (now : Instant) : User × Db :=
  match get_user_by_firebase_uid db info.uid with
  | some u => (u, db)
  | none =>
    match findUserByEmail db info.email with
    | some u =>
      let db1 := link_firebase_account db u.id info.uid now
      ((findUserByEmail db1 info.email).getD u, db1)
    | none => create_user_from_firebase db info newId now

/-- `FirebaseService.handle_firebase_login`: resolve the identity, stamp
`last_login`, and either return a challenge or full tokens.  The
authenticated branch issues tokens without inserting any `user_sessions`
row. -/
def handle_firebase_login (db : Db) (info : FirebaseInfo) (now : Instant)
    (jti : Nat) (newId : UserId) : LoginResult × Db :=
  let (u, db1) := find_or_create_user db info newId now
  let db2 := update_last_login db1 u.id now
  let st := get_mfa_status db2 u.id
  if st.mfa_required then
    let mt := if st.totp_enabled then "totp" else "email"
    (.challenged mt ⟨u.id, u.email, mt, now + 5 * 60⟩, db2)
  else
    let (a, r) := create_user_tokens u.id u.email now jti
    (.authenticated a r none, db2)

/-- A default `users` row for concrete test states. -/
def baseUser (uid : UserId) (email : String) : User :=
  { id := uid, email := email, full_name := "User", phone := "+1000000",
    user_type := "individual", password_hash := none,
    profile_status := "pending_verification", email_verified := false,
    failed_login_attempts := 0, account_locked_until := none,
    totp_enabled := false, totp_secret_encrypted := none,
    backup_codes_encrypted := none, email_mfa_enabled := false,
    firebase_uid := none, google_id := none, oauth_provider := none,
    profile_picture := none, last_login := none, updated_at := 0,
    deleted_at := none }

/-- Active verified password user with no MFA and no failed attempts. -/
def c1User : User :=
  { baseUser 1 "a@x.test" with
    password_hash := some ⟨0, "CorrectHorse1"⟩,
    profile_status := "active", email_verified := true }

/-- State for the lockout-counter claim. -/
def c1Db : Db := ⟨[c1User], [], [], []⟩

/-- The same state with the counter already at four failures. -/
def c1Db4 : Db :=
  updateUserById c1Db 1 fun u => { u with failed_login_attempts := 4 }

/-- C1: a login attempt whose password verification fails leaves
`failed_login_attempts` untouched — the login path never calls
`increment_failed_login_attempts` (dead code).  Moreover even that dead
helper, called with the counter at four at `now = 90` s, sets
`account_locked_until` to `960 = floor-to-minute(90) + 15 min`, not to
`now + 15 min = 990`; and at a wall-clock minute of 45 or later it crashes
with a `ValueError` instead of locking. -/
theorem c1_failed_login_does_not_increment :
    login c1Db "a@x.test" "wrong-password" none 90 0 0 "123456" true =
      (.failed .invalidCredentials, c1Db)
    ∧ (((login c1Db "a@x.test" "wrong-password" none 90 0 0 "123456" true).2).users.map
        fun u => u.failed_login_attempts) = [0]
    ∧ ((increment_failed_login_attempts c1Db4 1 90).toOption.bind fun d =>
        (findUserById d 1).bind fun u => u.account_locked_until) = some 960
    ∧ (90 : Nat) + 15 * 60 = 990 ∧ (960 : Nat) ≠ 990
    ∧ (increment_failed_login_attempts c1Db4 1 2700).toOption = none := by
  decide

/-- Firebase-linked user with no MFA enabled. -/
def c2User : User :=
  { baseUser 2 "b@x.test" with
    profile_status := "active", email_verified := true,
    firebase_uid := some "F9", oauth_provider := some "firebase" }

/-- State for the federated-login session claim: no session rows. -/
def c2Db : Db := ⟨[c2User], [], [], []⟩

/-- The verified Firebase assertion for `c2User`. -/
def c2Info : FirebaseInfo := ⟨"F9", "b@x.test", true, "B", none⟩

/-- Password user for the contrasting password-login leg. -/
def c2PwUser : User :=
  { baseUser 3 "c@x.test" with
    password_hash := some ⟨1, "GoodPass1"⟩,
    profile_status := "active", email_verified := true }

/-- State for the password-login leg of the session claim. -/
def c2PwDb : Db := ⟨[c2PwUser], [], [], []⟩

/-- C2: a Firebase login that returns an authenticated result (no MFA)
issues an access/refresh pair but inserts no `user_sessions` row, so a
subsequent refresh with the issued token fails with invalid-refresh; a
password login in the same situation does insert the active session row
whose hash is that of the issued refresh token. -/
theorem c2_firebase_login_misses_session :
    (handle_firebase_login c2Db c2Info 1000 7 99).1 =
      .authenticated ⟨2, "b@x.test", 1000 + 30 * 60⟩
        ⟨2, "b@x.test", 1000 + 7 * 86400, 7⟩ none
    ∧ ((handle_firebase_login c2Db c2Info 1000 7 99).2).sessions = []
    ∧ refresh_endpoint ((handle_firebase_login c2Db c2Info 1000 7 99).2)
        ⟨2, "b@x.test", 1000 + 7 * 86400, 7⟩ 1001 8 =
        (.err .invalidRefresh, (handle_firebase_login c2Db c2Info 1000 7 99).2)
    ∧ ((login c2PwDb "c@x.test" "GoodPass1" none 1000 7 0 "1" true).2).sessions =
        [⟨3, ⟨3, "c@x.test", 1000 + 7 * 86400, 7⟩, 1000 + 7 * 86400, true, none⟩] := by
  decide

/-- Locked-out password user (`locked_until = 9999`, counter at five). -/
def c4User : User :=
  { baseUser 4 "l@x.test" with
    password_hash := some ⟨0, "RightPw1"⟩,
    profile_status := "active", email_verified := true,
    failed_login_attempts := 5, account_locked_until := some 9999 }

/-- State for the lockout-ordering claim. -/
def c4Db : Db := ⟨[c4User], [], [], []⟩

/-- C4 counterexample: with `locked_until` set and in the future, a login
with a wrong password yields invalid-credentials, not account-locked — the
password check runs before the lockout check. -/
theorem c4_locked_wrong_password_not_locked_error :
    c4User.account_locked_until = some 9999 ∧ (100 : Nat) < 9999
    ∧ authenticate_user c4Db "l@x.test" "wrong" 100 = .failed .invalidCredentials
    ∧ AuthResult.failed LoginErr.invalidCredentials ≠ .failed .accountLocked := by
  decide

/-- Older email OTP row (code 111111, created at 10, expires at 310). -/
def c5Otp1 : EmailOtp := ⟨5, ⟨1, "111111"⟩, 310, false, 10⟩

/-- Newer email OTP row (code 222222, created at 20, expires at 320). -/
def c5Otp2 : EmailOtp := ⟨5, ⟨2, "222222"⟩, 320, false, 20⟩

/-- State with two unused unexpired OTP rows for the same user. -/
def c5Db : Db := ⟨[], [], [c5Otp1, c5Otp2], []⟩

/-- C5 counterexample: after a newer code is issued, the older code —
unused and within its own expiry — no longer verifies, because verification
only consults the most recent usable row. -/
theorem c5_prior_code_not_verifiable :
    c5Otp1.used = false ∧ (30 : Nat) < c5Otp1.expires_at
    ∧ pwdVerify "111111" c5Otp1.code_hash = true
    ∧ verify_email_mfa_code c5Db 5 "111111" 30 = (false, c5Db) := by
  decide

/-- TOTP-enabled user for the attempt-logging claim. -/
def c7User : User :=
  { baseUser 7 "t@x.test" with
    profile_status := "active", email_verified := true,
    totp_enabled := true, totp_secret_encrypted := some "SECRET" }

/-- State for the attempt-logging claim: empty `mfa_attempts` table. -/
def c7Db : Db := ⟨[c7User], [], [], []⟩

/-- The MFA challenge token for `c7User`. -/
def c7Temp : TempTok := ⟨7, "t@x.test", "totp", 1000⟩

/-- C7 counterexample: a failed MFA verification through the login-flow
endpoint returns invalid-MFA and leaves `mfa_attempts` empty — no attempt
row is appended. -/
theorem c7_login_flow_logs_nothing :
    verify_mfa_login c7Db c7Temp "zzz" false 500 9 =
      (.unauthorized "Invalid MFA code", c7Db)
    ∧ c7Db.mfa_attempts = [] := by
  decide

/-- User holding a password credential, for the provider-promotion claim. -/
def c8User : User :=
  { baseUser 8 "p@x.test" with
    password_hash := some ⟨0, "Passw0rd"⟩,
    profile_status := "active", email_verified := true }

/-- State for the provider-promotion claim. -/
def c8Db : Db := ⟨[c8User], [], [], []⟩

/-- C8 counterexample: linking a Firebase account to an identity that holds
a password credential sets `oauth_provider` to `'firebase'`, not to
`'both'`. -/
theorem c8_firebase_link_not_promoted :
    c8User.password_hash ≠ none
    ∧ ((findUserById (link_firebase_account c8Db 8 "FB1" 50) 8).map
        fun u => u.oauth_provider) = some (some "firebase")
    ∧ some "firebase" ≠ some ("both" : String) := by
  decide

/-- `find?` over a mapped list whose transform preserves the predicate. -/
theorem find?_map_pres {α : Type} (l : List α) (p : α → Bool) (g : α → α)
    (hp : ∀ x, p (g x) = p x) : (l.map g).find? p = (l.find? p).map g := by
  induction l with
  | nil => rfl
  | cons a t ih =>
    simp only [List.map_cons, List.find?_cons, hp a]
    cases h : p a <;> simp [h, ih]

/-- A found user row carries the looked-up id and is not soft-deleted. -/
theorem findUserById_id (db : Db) (uid : UserId) (u : User)
    (h : findUserById db uid = some u) : u.id = uid ∧ u.deleted_at = none := by
  have hp := List.find?_some h
  simpa using hp

/-- A found user row is a row of the table. -/
theorem findUserById_mem (db : Db) (uid : UserId) (u : User)
    (h : findUserById db uid = some u) : u ∈ db.users :=
  List.mem_of_find?_eq_some h

/-- Looking a user up after an id-targeted update that preserves `id` and
`deleted_at` returns the transformed row. -/
theorem findUserById_update_found (db : Db) (uid : UserId) (f : User → User)
    (u : User) (hid : ∀ x, (f x).id = x.id)
    (hdel : ∀ x, (f x).deleted_at = x.deleted_at)
    (h : findUserById db uid = some u) :
    findUserById (updateUserById db uid f) uid = some (f u) := by
  have hpres : ∀ x : User,
      ((fun v => v.id == uid && v.deleted_at == none)
        (if x.id = uid then f x else x)) =
      ((fun v => v.id == uid && v.deleted_at == none) x) := by
    intro x
    by_cases hx : x.id = uid <;> simp [hx, hid, hdel]
  have := find?_map_pres db.users (fun v => v.id == uid && v.deleted_at == none)
    (fun x => if x.id = uid then f x else x) hpres
  unfold findUserById updateUserById
  unfold findUserById at h
  rw [this, h]
  simp [(findUserById_id db uid u h).1]

/-- The selection of `mostRecentUsableGo` is the accumulator or a usable row
of the list. -/
theorem mostRecentUsableGo_spec (uid : UserId) (now : Instant) :
    ∀ (l : List EmailOtp) (acc : Option EmailOtp) (r : EmailOtp),
      mostRecentUsableGo uid now acc l = some r →
      acc = some r ∨
        (r ∈ l ∧ r.user_id = uid ∧ r.used = false ∧ now < r.expires_at) := by
  intro l
  induction l with
  | nil =>
    intro acc r h
    exact .inl h
  | cons a t ih =>
    intro acc r h
    simp only [mostRecentUsableGo] at h
    rcases ih _ r h with hacc | hmem
    · by_cases hu : a.user_id = uid ∧ a.used = false ∧ now < a.expires_at
      · rw [if_pos hu] at hacc
        cases acc with
        | none =>
          have : a = r := by simpa using hacc
          subst this
          exact .inr ⟨List.mem_cons_self a t, hu⟩
        | some b =>
          have hacc2 : (if b.created_at ≤ a.created_at then some a else some b) =
              some r := hacc
          by_cases hb : b.created_at ≤ a.created_at
          · rw [if_pos hb] at hacc2
            have : a = r := by simpa using hacc2
            subst this
            exact .inr ⟨List.mem_cons_self a t, hu⟩
          · rw [if_neg hb] at hacc2
            exact .inl hacc2
      · rw [if_neg hu] at hacc
        exact .inl hacc
    · exact .inr ⟨List.mem_cons_of_mem a hmem.1, hmem.2⟩

/-- The row selected by `mostRecentUsable` is a usable row of the table. -/
theorem mostRecentUsable_spec (rows : List EmailOtp) (uid : UserId)
    (now : Instant) (r : EmailOtp) (h : mostRecentUsable rows uid now = some r) :
    r ∈ rows ∧ r.user_id = uid ∧ r.used = false ∧ now < r.expires_at := by
  rcases mostRecentUsableGo_spec uid now rows none r h with h' | h'
  · exact absurd h' (by simp)
  · exact h'

/-- C3: once a refresh-token rotation succeeds for token `R`, no stored
session with `refresh_token_hash = H(R)` remains active, and presenting `R`
again — after the rotation, or after a logout — fails with invalid-refresh
and returns the session store unchanged. -/
theorem c3_rotated_refresh_token_is_single_use :
    (∀ (db : Db) (tok : RefreshTok) (now jti now2 jti2 : Nat) (a : AccessTok)
        (r : RefreshTok) (db1 : Db),
      refresh_endpoint db tok now jti = (.ok a r, db1) →
      now2 ≤ tok.exp →
      (∀ s ∈ db1.sessions, s.refresh_token_hash = tok → s.is_active = false) ∧
      refresh_endpoint db1 tok now2 jti2 = (.err .invalidRefresh, db1)) ∧
    (∀ (db : Db) (tok : RefreshTok) (now0 now2 jti2 : Nat),
      now2 ≤ tok.exp →
      refresh_endpoint (logout_endpoint db tok now0) tok now2 jti2 =
        (.err .invalidRefresh, logout_endpoint db tok now0)) := by
  constructor
  · intro db tok now jti now2 jti2 a r db1 h hle
    unfold refresh_endpoint at h
    split at h
    · simp at h
    · split at h
      · simp at h
      · rw [Prod.mk.injEq] at h
        obtain ⟨-, hdb⟩ := h
        subst hdb
        have hinact : ∀ s ∈ ((store_refresh_token db tok.sub
              (create_user_tokens tok.sub tok.email now jti).2 now).sessions.map
              fun s => if s.refresh_token_hash = tok then
                { s with is_active := false } else s),
            s.refresh_token_hash = tok → s.is_active = false := by
          intro s hs hhash
          rw [List.mem_map] at hs
          obtain ⟨x, hx, hsx⟩ := hs
          by_cases hc : x.refresh_token_hash = tok
          · rw [if_pos hc] at hsx
            rw [← hsx]
          · rw [if_neg hc] at hsx
            rw [← hsx] at hhash
            exact absurd hhash hc
        refine ⟨hinact, ?_⟩
        unfold refresh_endpoint
        rw [if_neg (Nat.not_lt.mpr hle)]
        have hnone : find_active_session
            { store_refresh_token db tok.sub
                (create_user_tokens tok.sub tok.email now jti).2 now with
              sessions := (store_refresh_token db tok.sub
                (create_user_tokens tok.sub tok.email now jti).2 now).sessions.map
                fun s => if s.refresh_token_hash = tok then
                  { s with is_active := false } else s }
            tok.sub tok now2 = none := by
          unfold find_active_session
          rw [List.find?_eq_none]
          intro s hs
          simp only [decide_eq_true_eq, not_and]
          intro _ hhash hact
          have := hinact s hs hhash
          rw [this] at hact
          cases hact
        rw [hnone]
  · intro db tok now0 now2 jti2 hle
    unfold refresh_endpoint
    rw [if_neg (Nat.not_lt.mpr hle)]
    have hnone : find_active_session (logout_endpoint db tok now0)
        tok.sub tok now2 = none := by
      unfold find_active_session logout_endpoint
      rw [List.find?_eq_none]
      intro s hs
      simp only [List.mem_map] at hs
      obtain ⟨x, hx, hsx⟩ := hs
      simp only [decide_eq_true_eq, not_and]
      intro _ hhash hact
      by_cases hc : x.refresh_token_hash = tok
      · rw [if_pos hc] at hsx
        rw [← hsx] at hact
        cases hact
      · rw [if_neg hc] at hsx
        rw [← hsx] at hhash
        exact absurd hhash hc
    rw [hnone]

/-- Active session fixture for the rotation witness. -/
def c3Tok : RefreshTok := ⟨11, "r@x.test", 700000, 1⟩

/-- State holding one active session for `c3Tok`. -/
def c3Db : Db := ⟨[], [⟨11, c3Tok, 700000, true, none⟩], [], []⟩

/-- Witness for `c3_rotated_refresh_token_is_single_use` at a concrete
state: the rotation succeeds, and both conclusions hold there. -/
theorem c3_rotated_refresh_token_is_single_use_witness :
    ((∀ s ∈ (refresh_endpoint c3Db c3Tok 100 2).2.sessions,
        s.refresh_token_hash = c3Tok → s.is_active = false) ∧
      refresh_endpoint (refresh_endpoint c3Db c3Tok 100 2).2 c3Tok 200 3 =
        (.err .invalidRefresh, (refresh_endpoint c3Db c3Tok 100 2).2)) ∧
    refresh_endpoint (logout_endpoint c3Db c3Tok 50) c3Tok 60 4 =
      (.err .invalidRefresh, logout_endpoint c3Db c3Tok 50) := by
  constructor
  · exact c3_rotated_refresh_token_is_single_use.1 c3Db c3Tok 100 2 200 3
      ⟨11, "r@x.test", 1900⟩ ⟨11, "r@x.test", 604900, 2⟩
      (refresh_endpoint c3Db c3Tok 100 2).2 (by decide) (by decide)
  · exact c3_rotated_refresh_token_is_single_use.2 c3Db c3Tok 50 60 4 (by decide)

/-- C4 (amended): when `locked_until` is set and in the future, login yields
account-locked exactly when the supplied password verifies; with a wrong
password it yields invalid-credentials, because password verification runs
before the lockout check. -/
theorem c4_amended_lock_checked_after_password :
    ∀ (db : Db) (email pw : String) (now : Instant) (u : User) (h : PwdHash),
      findUserByEmail db email = some u →
      u.password_hash = some h →
      lockActive u now = true →
      (authenticate_user db email pw now = .failed .accountLocked ↔
        pwdVerify pw h = true) ∧
      (pwdVerify pw h = false →
        authenticate_user db email pw now = .failed .invalidCredentials) := by
  intro db email pw now u h hfind hph hlock
  cases hpw : pwdVerify pw h with
  | false =>
    constructor
    · simp [authenticate_user, hfind, hph, hpw]
    · intro
      simp [authenticate_user, hfind, hph, hpw]
  | true =>
    refine ⟨?_, ?_⟩
    · simp [authenticate_user, hfind, hph, hpw, hlock]
    · intro hcontra
      cases hcontra

/-- Witness for `c4_amended_lock_checked_after_password` at the locked
fixture. -/
theorem c4_amended_lock_checked_after_password_witness :
    (authenticate_user c4Db "l@x.test" "RightPw1" 100 = .failed .accountLocked ↔
      pwdVerify "RightPw1" ⟨0, "RightPw1"⟩ = true) ∧
    (pwdVerify "RightPw1" ⟨0, "RightPw1"⟩ = false →
      authenticate_user c4Db "l@x.test" "RightPw1" 100 =
        .failed .invalidCredentials) :=
  c4_amended_lock_checked_after_password c4Db "l@x.test" "RightPw1" 100 c4User
    ⟨0, "RightPw1"⟩ (by decide) (by decide) (by decide)

/-- C5 (amended): email-OTP verification accepts the presented code exactly
when it matches the most recent usable row — an older unused, unexpired code
is no longer verifiable once a newer usable one exists — and on success it
consumes only the rows of this user carrying the matched hash, leaving every
other row unchanged. -/
theorem c5_amended_only_most_recent_code_verifiable :
    ∀ (db : Db) (uid : UserId) (code : String) (now : Instant),
      ((verify_email_mfa_code db uid code now).1 = true ↔
        ∃ r, mostRecentUsable db.email_mfa_codes uid now = some r ∧
          pwdVerify code r.code_hash = true) ∧
      (∀ r, mostRecentUsable db.email_mfa_codes uid now = some r →
        pwdVerify code r.code_hash = true →
        ∀ x ∈ db.email_mfa_codes,
          (¬ (x.user_id = uid ∧ x.code_hash = r.code_hash) →
            x ∈ (verify_email_mfa_code db uid code now).2.email_mfa_codes) ∧
          ((x.user_id = uid ∧ x.code_hash = r.code_hash) →
            { x with used := true } ∈
              (verify_email_mfa_code db uid code now).2.email_mfa_codes)) := by
  intro db uid code now
  constructor
  · constructor
    · intro h
      unfold verify_email_mfa_code at h
      cases hmr : mostRecentUsable db.email_mfa_codes uid now with
      | none =>
        rw [hmr] at h
        cases h
      | some r =>
        rw [hmr] at h
        by_cases hpw : pwdVerify code r.code_hash = true
        · exact ⟨r, rfl, hpw⟩
        · simp [hpw] at h
    · rintro ⟨r, hmr, hpw⟩
      unfold verify_email_mfa_code
      rw [hmr]
      simp [hpw]
  · intro r hmr hpw x hx
    have hmap : (verify_email_mfa_code db uid code now).2.email_mfa_codes =
        db.email_mfa_codes.map fun y =>
          if y.user_id = uid ∧ y.code_hash = r.code_hash then
            { y with used := true }
          else y := by
      unfold verify_email_mfa_code
      rw [hmr]
      simp [hpw]
    constructor
    · intro hne
      rw [hmap]
      refine List.mem_map.mpr ⟨x, hx, ?_⟩
      simp [hne]
    · intro heq
      rw [hmap]
      refine List.mem_map.mpr ⟨x, hx, ?_⟩
      simp [heq]

/-- Witness for `c5_amended_only_most_recent_code_verifiable` at the
two-code fixture: the newest code verifies and its row is flipped to used. -/
theorem c5_amended_only_most_recent_code_verifiable_witness :
    (verify_email_mfa_code c5Db 5 "222222" 30).1 = true ∧
    { c5Otp2 with used := true } ∈
      (verify_email_mfa_code c5Db 5 "222222" 30).2.email_mfa_codes := by
  constructor
  · exact (c5_amended_only_most_recent_code_verifiable c5Db 5 "222222" 30).1.mpr
      ⟨c5Otp2, by decide, by decide⟩
  · exact ((c5_amended_only_most_recent_code_verifiable c5Db 5 "222222" 30).2
      c5Otp2 (by decide) (by decide) c5Otp2 (by decide)).2 (by decide)

/-- Email-OTP verification fails whenever no usable row matches the
presented code. -/
theorem verify_email_mfa_code_false (db : Db) (uid : UserId) (code : String)
    (now : Instant)
    (h : ∀ r, mostRecentUsable db.email_mfa_codes uid now = some r →
      pwdVerify code r.code_hash = false) :
    (verify_email_mfa_code db uid code now).1 = false := by
  unfold verify_email_mfa_code
  cases hmr : mostRecentUsable db.email_mfa_codes uid now with
  | none => rfl
  | some r =>
    have hr := h r hmr
    simp [hr]

/-- C6: a successfully verified email-OTP code or backup code is consumed —
its row is flipped to used, resp. the code is removed from the stored list —
so an immediately following second verification of the same code fails.
The email leg assumes the user's unused rows carry the presented plaintext
under at most one hash (bcrypt salting); the backup leg assumes the stored
list holds the code at most once (distinct generated codes). -/
theorem c6_verified_code_is_single_use :
    (∀ (db : Db) (uid : UserId) (code : String) (now now2 : Instant),
      (verify_email_mfa_code db uid code now).1 = true →
      (∀ x ∈ db.email_mfa_codes, ∀ y ∈ db.email_mfa_codes,
        x.user_id = uid → y.user_id = uid → x.used = false → y.used = false →
        pwdVerify code x.code_hash = true → pwdVerify code y.code_hash = true →
        x.code_hash = y.code_hash) →
      (verify_email_mfa_code (verify_email_mfa_code db uid code now).2 uid code
        now2).1 = false) ∧
    (∀ (db : Db) (uid : UserId) (code : String) (now now2 : Instant) (u : User)
        (codes : List String),
      findUserById db uid = some u →
      u.backup_codes_encrypted = some codes →
      codes.count code ≤ 1 →
      (verify_backup_code db uid code now).1 = true →
      (verify_backup_code (verify_backup_code db uid code now).2 uid code
        now2).1 = false) := by
  constructor
  · intro db uid code now now2 hsucc hded
    cases hmr : mostRecentUsable db.email_mfa_codes uid now with
    | none =>
      unfold verify_email_mfa_code at hsucc
      rw [hmr] at hsucc
      cases hsucc
    | some r =>
      by_cases hpw : pwdVerify code r.code_hash = true
      · have hspec1 := mostRecentUsable_spec _ _ _ _ hmr
        have hmap : (verify_email_mfa_code db uid code now).2.email_mfa_codes =
            db.email_mfa_codes.map fun y =>
              if y.user_id = uid ∧ y.code_hash = r.code_hash then
                { y with used := true }
              else y := by
          unfold verify_email_mfa_code
          rw [hmr]
          simp [hpw]
        apply verify_email_mfa_code_false
        intro r2 hmr2
        have hspec2 := mostRecentUsable_spec _ _ _ _ hmr2
        rw [hmap, List.mem_map] at hspec2
        obtain ⟨⟨x, hxmem, hfx⟩, hr2uid, hr2used, -⟩ := hspec2
        by_cases hc : x.user_id = uid ∧ x.code_hash = r.code_hash
        · rw [if_pos hc] at hfx
          rw [← hfx] at hr2used
          simp at hr2used
        · rw [if_neg hc] at hfx
          subst hfx
          rcases Bool.eq_false_or_eq_true (pwdVerify code x.code_hash) with hb | hb
          · have hxhash := hded x hxmem r hspec1.1 hr2uid hspec1.2.1 hr2used
              hspec1.2.2.1 hb hpw
            exact absurd ⟨hr2uid, hxhash⟩ hc
          · exact hb
      · unfold verify_email_mfa_code at hsucc
        rw [hmr] at hsucc
        simp [hpw] at hsucc
  · intro db uid code now now2 u codes hfind hbk hcount hsucc
    have hmemcode : code ∈ codes := by
      by_contra hnm
      simp only [verify_backup_code, hfind, hbk, if_neg hnm] at hsucc
      cases hsucc
    have hdb2 : (verify_backup_code db uid code now).2 =
        updateUserById db uid fun x =>
          { x with backup_codes_encrypted := some (codes.erase code),
                   updated_at := now } := by
      simp only [verify_backup_code, hfind, hbk, if_pos hmemcode]
    have hfind2 : findUserById (verify_backup_code db uid code now).2 uid =
        some { u with backup_codes_encrypted := some (codes.erase code),
                      updated_at := now } := by
      rw [hdb2]
      exact findUserById_update_found db uid _ u (fun x => rfl) (fun x => rfl) hfind
    have hnotmem : code ∉ codes.erase code := by
      intro hmem
      have h1 : 0 < (codes.erase code).count code := List.count_pos_iff.mpr hmem
      rw [List.count_erase_self] at h1
      omega
    set db2 := (verify_backup_code db uid code now).2 with hdb2def
    simp only [verify_backup_code, hfind2, if_neg hnotmem]

/-- User enrolled with two distinct backup codes for the single-use
witness. -/
def c6User : User :=
  { baseUser 6 "bk@x.test" with
    profile_status := "active", email_verified := true, totp_enabled := true,
    totp_secret_encrypted := some "S6",
    backup_codes_encrypted := some ["11111111", "22222222"] }

/-- State for the backup-code single-use witness. -/
def c6Db : Db := ⟨[c6User], [], [], []⟩

/-- Witness for `c6_verified_code_is_single_use`: at the two-code OTP
fixture and the backup-code fixture, the second verification of the just
consumed code fails. -/
theorem c6_verified_code_is_single_use_witness :
    (verify_email_mfa_code (verify_email_mfa_code c5Db 5 "222222" 30).2 5
      "222222" 40).1 = false ∧
    (verify_backup_code (verify_backup_code c6Db 6 "11111111" 100).2 6
      "11111111" 200).1 = false := by
  constructor
  · exact c6_verified_code_is_single_use.1 c5Db 5 "222222" 30 40 (by decide)
      (by decide)
  · exact c6_verified_code_is_single_use.2 c6Db 6 "11111111" 100 200 c6User
      ["11111111", "22222222"] (by decide) (by decide) (by decide) (by decide)

/-- Backup-code verification never touches the `mfa_attempts` table. -/
theorem verify_backup_code_mfa_attempts (db : Db) (uid : UserId) (code : String)
    (now : Instant) :
    ((verify_backup_code db uid code now).2).mfa_attempts = db.mfa_attempts := by
  unfold verify_backup_code
  split
  · rfl
  · split
    · rfl
    · split
      · rfl
      · rfl

/-- Email-OTP verification never touches the `mfa_attempts` table. -/
theorem verify_email_mfa_code_mfa_attempts (db : Db) (uid : UserId)
    (code : String) (now : Instant) :
    ((verify_email_mfa_code db uid code now).2).mfa_attempts = db.mfa_attempts := by
  unfold verify_email_mfa_code
  split
  · rfl
  · split
    · rfl
    · rfl

/-- C7 (amended): the login-flow MFA verification endpoint
(`/auth/mfa/verify`) appends no `MfaAttempt` row on any path, success or
failure; attempt rows are appended only by the standalone MFA endpoints,
here exemplified by the backup-code endpoint, which records exactly one row
with the method and outcome on every call. -/
theorem c7_amended_attempt_logging :
    (∀ (db : Db) (temp : TempTok) (code : String) (remember_device : Bool)
        (now : Instant) (jti : Nat),
      ((verify_mfa_login db temp code remember_device now jti).2).mfa_attempts =
        db.mfa_attempts) ∧
    (∀ (db : Db) (uid : UserId) (code : String) (now : Instant)
        (ip ua : Option String),
      ((backup_verify_endpoint db uid code now ip ua).2).mfa_attempts =
        db.mfa_attempts ++
          [⟨uid, "backup", (verify_backup_code db uid code now).1, ip, ua⟩]) := by
  constructor
  · intro db temp code remember now jti
    have hv : (dispatch_mfa_code db temp.sub temp.mfa_type code now).2.mfa_attempts
        = db.mfa_attempts := by
      unfold dispatch_mfa_code
      split
      · split
        · rfl
        · exact verify_backup_code_mfa_attempts db temp.sub code now
      · split
        · exact verify_email_mfa_code_mfa_attempts db temp.sub code now
        · rfl
    simp only [verify_mfa_login]
    split
    · rfl
    · split
      · rfl
      · split
        · rfl
        · split
          · exact hv
          · simpa [store_refresh_token] using hv
  · intro db uid code now ip ua
    simp only [backup_verify_endpoint, log_mfa_attempt]
    rw [verify_backup_code_mfa_attempts]

/-- C8 (amended): account linking sets the federated id unconditionally;
the Firebase linker always sets `oauth_provider` to `'firebase'` and the
Google linker always sets it to `'both'`, in both cases without consulting
whether a password credential is present. -/
theorem c8_amended_provider_set_unconditionally :
    ∀ (db : Db) (uid : UserId) (fuid gid : String) (now : Instant),
      (∀ u ∈ (link_firebase_account db uid fuid now).users, u.id = uid →
        u.oauth_provider = some "firebase" ∧ u.firebase_uid = some fuid) ∧
      (∀ u ∈ (link_google_account db uid gid now).users, u.id = uid →
        u.oauth_provider = some "both" ∧ u.google_id = some gid) := by
  intro db uid fuid gid now
  constructor
  · intro u hu hid
    unfold link_firebase_account updateUserById at hu
    rw [List.mem_map] at hu
    obtain ⟨x, hx, hxu⟩ := hu
    by_cases hc : x.id = uid
    · rw [if_pos hc] at hxu
      rw [← hxu]
      exact ⟨rfl, rfl⟩
    · rw [if_neg hc] at hxu
      rw [← hxu] at hid
      exact absurd hid hc
  · intro u hu hid
    unfold link_google_account updateUserById at hu
    rw [List.mem_map] at hu
    obtain ⟨x, hx, hxu⟩ := hu
    by_cases hc : x.id = uid
    · rw [if_pos hc] at hxu
      rw [← hxu]
      exact ⟨rfl, rfl⟩
    · rw [if_neg hc] at hxu
      rw [← hxu] at hid
      exact absurd hid hc

/-- The row of `c8User` after the Firebase link. -/
def c8Linked : User :=
  { c8User with
    firebase_uid := some "FB1", oauth_provider := some "firebase",
    updated_at := 50 }

/-- Witness for `c8_amended_provider_set_unconditionally` at the
password-holding fixture. -/
theorem c8_amended_provider_set_unconditionally_witness :
    c8Linked.oauth_provider = some "firebase" ∧
    c8Linked.firebase_uid = some "FB1" :=
  (c8_amended_provider_set_unconditionally c8Db 8 "FB1" "G1" 50).1
    c8Linked (by decide) (by decide)

/-- C9: after `setup_totp` stores the encrypted backup-code bundle for a
user whose `totp_enabled` is still false, the user row holds the bundle with
`totp_enabled` unchanged (false), and `verify_backup_code` already succeeds
for each generated code — it checks only that the bundle exists and never
consults `totp_enabled`. -/
theorem c9_backup_codes_usable_before_finalize :
    ∀ (db : Db) (uid : UserId) (u : User) (secret : String)
      (codes : List String) (now now2 : Instant) (c : String),
      findUserById db uid = some u →
      u.totp_enabled = false →
      c ∈ codes →
      findUserById (setup_totp db uid secret codes now) uid =
        some { u with totp_secret_encrypted := some secret,
                      backup_codes_encrypted := some codes,
                      updated_at := now } ∧
      ({ u with totp_secret_encrypted := some secret,
                backup_codes_encrypted := some codes,
                updated_at := now } : User).totp_enabled = false ∧
      (verify_backup_code (setup_totp db uid secret codes now) uid c now2).1 =
        true := by
  intro db uid u secret codes now now2 c hfind htotp hc
  have hfind2 : findUserById (setup_totp db uid secret codes now) uid =
      some { u with totp_secret_encrypted := some secret,
                    backup_codes_encrypted := some codes,
                    updated_at := now } := by
    unfold setup_totp
    exact findUserById_update_found db uid _ u (fun x => rfl) (fun x => rfl) hfind
  refine ⟨hfind2, by simp [htotp], ?_⟩
  simp only [verify_backup_code, hfind2, if_pos hc]

/-- User not yet enrolled in TOTP, for the pre-finalization witness. -/
def c9User : User :=
  { baseUser 9 "n@x.test" with profile_status := "active", email_verified := true }

/-- State for the pre-finalization backup-code witness. -/
def c9Db : Db := ⟨[c9User], [], [], []⟩

/-- The row of `c9User` after the enrollment step. -/
def c9Enrolled : User :=
  { c9User with
    totp_secret_encrypted := some "S9",
    backup_codes_encrypted := some ["33333333", "44444444"],
    updated_at := 70 }

/-- Witness for `c9_backup_codes_usable_before_finalize` at a concrete
enrollment. -/
theorem c9_backup_codes_usable_before_finalize_witness :
    findUserById (setup_totp c9Db 9 "S9" ["33333333", "44444444"] 70) 9 =
      some c9Enrolled ∧
    c9Enrolled.totp_enabled = false ∧
    (verify_backup_code (setup_totp c9Db 9 "S9" ["33333333", "44444444"] 70) 9
      "44444444" 80).1 = true :=
  c9_backup_codes_usable_before_finalize c9Db 9 c9User "S9"
    ["33333333", "44444444"] 70 80 "44444444" (by decide) (by decide) (by decide)

/-- C10: for a user with email MFA enabled, `send_email_mfa_code` stores the
hashed code and returns the plaintext code with the same result whether mail
delivery succeeded or failed (delivery failure never raises), and the
send-code endpoint embeds the plaintext code in its success message in the
development environment. -/
theorem c10_send_code_ignores_mail_outcome :
    ∀ (db : Db) (uid : UserId) (u : User) (email : String) (now : Instant)
      (salt : Nat) (code : String),
      findUserById db uid = some u →
      u.email_mfa_enabled = true →
      (∀ mailOk : Bool,
        send_email_mfa_code db uid email now salt code mailOk =
          .ok (code, { db with email_mfa_codes := db.email_mfa_codes ++
            [⟨uid, ⟨salt, code⟩, now + 5 * 60, false, now⟩] })) ∧
      (∀ mailOk : Bool,
        send_email_mfa_code_endpoint db uid email now salt code mailOk
          "development" =
          (some ("Email MFA code sent: " ++ code),
           { db with email_mfa_codes := db.email_mfa_codes ++
             [⟨uid, ⟨salt, code⟩, now + 5 * 60, false, now⟩] })) := by
  intro db uid u email now salt code hfind hen
  have hsend : ∀ mailOk : Bool,
      send_email_mfa_code db uid email now salt code mailOk =
        .ok (code, { db with email_mfa_codes := db.email_mfa_codes ++
          [⟨uid, ⟨salt, code⟩, now + 5 * 60, false, now⟩] }) := by
    intro mailOk
    simp only [send_email_mfa_code, hfind]
    simp [hen]
  refine ⟨hsend, ?_⟩
  intro mailOk
  have hst : get_mfa_status db uid =
      ⟨u.totp_enabled, u.email_mfa_enabled,
       u.totp_enabled || u.email_mfa_enabled,
       if u.totp_enabled then
         match u.backup_codes_encrypted with
         | some cs => cs.length
         | none => 0
       else 0⟩ := by
    simp only [get_mfa_status, hfind]
  simp only [send_email_mfa_code_endpoint, hst, hen, hsend mailOk]
  simp

/-- Email-MFA-enabled user for the send-code witness. -/
def c10User : User :=
  { baseUser 10 "e@x.test" with
    profile_status := "active",
    email_verified := true, email_mfa_enabled := true }

/-- State for the send-code witness. -/
def c10Db : Db := ⟨[c10User], [], [], []⟩

/-- Witness for `c10_send_code_ignores_mail_outcome` with failed mail
delivery at a concrete state. -/
theorem c10_send_code_ignores_mail_outcome_witness :
    send_email_mfa_code c10Db 10 "e@x.test" 500 3 "654321" false =
      .ok ("654321", { c10Db with email_mfa_codes := c10Db.email_mfa_codes ++
        [⟨10, ⟨3, "654321"⟩, 500 + 5 * 60, false, 500⟩] }) ∧
    send_email_mfa_code_endpoint c10Db 10 "e@x.test" 500 3 "654321" false
      "development" =
      (some ("Email MFA code sent: " ++ "654321"),
       { c10Db with email_mfa_codes := c10Db.email_mfa_codes ++
         [⟨10, ⟨3, "654321"⟩, 500 + 5 * 60, false, 500⟩] }) := by
  constructor
  · exact (c10_send_code_ignores_mail_outcome c10Db 10 c10User "e@x.test" 500 3
      "654321" (by decide) (by decide)).1 false
  · exact (c10_send_code_ignores_mail_outcome c10Db 10 c10User "e@x.test" 500 3
      "654321" (by decide) (by decide)).2 false

end PFM
